import Mathlib

/-
Verification of the asi-utils command-line core (src/infi/asi_utils/__init__.py)
against its natural-language specification.

The Python module is shallowly embedded below.  Conventions of the embedding:
  * Python exceptions become `Except AsiError`; each `raise` site of the source
    is an `Except.error` with the corresponding error class.
  * Byte strings become `List Nat` (one entry per byte).
  * The cooperative generator protocol of `CDB.execute` (it yields exactly one
    `executer.call(...)` and then yields the result datagram) is embedded as a
    function returning the list of issued channel calls together with the final
    result, with the channel itself passed in as a pure function from a call to
    its response bytes.
  * Out-of-scope collaborators (the channel drivers, `get_sg_from_sd`, the
    input streams) are parameters of the embedded functions.
-/

namespace AsiUtils

/-- Python str.startswith, on the embedded character lists. -/
def py_startswith (s p : String) : Bool :=
  s.toList.take p.toList.length == p.toList

/-- Python str.isdigit for byte strings: nonempty and every character a decimal digit. -/
def py_isdigit (s : String) : Bool :=
  !s.toList.isEmpty && s.toList.all (fun c => c.isDigit)

/-- Value of a string of decimal digits, base 10, most significant first (Python int(s)). -/
def digitsToNat (l : List Char) : Nat :=
  l.foldl (fun acc c => 10 * acc + (c.toNat - 48)) 0

/-- Value of a single hexadecimal digit character, if it is one. -/
def hexDigitVal (c : Char) : Option Nat :=
  if c.toNat ≥ 48 ∧ c.toNat ≤ 57 then some (c.toNat - 48)
  else if c.toNat ≥ 97 ∧ c.toNat ≤ 102 then some (c.toNat - 87)
  else if c.toNat ≥ 65 ∧ c.toNat ≤ 70 then some (c.toNat - 55)
  else none

/-- Python int(rest, 16) on the digits after a 0x prefix: some value when the
character list is nonempty and all-hexadecimal, none (a ValueError) otherwise. -/
def hexValue (l : List Char) : Option Nat :=
  if !l.isEmpty && l.all (fun c => (hexDigitVal c).isSome) then
    some (l.foldl (fun acc c => 16 * acc + (hexDigitVal c).getD 0) 0)
  else
    none

/-- The error classes the source raises or catches: AsiCheckConditionError with
its sense object, ValueError (FormatError), NotImplementedError, AsiOSError,
AsiSCSIError, and the AssertionError of the short-read assert (uncaught by the
handler). -/
inductive AsiError where
  | asiCheckConditionError (sense_obj : String)
  | valueError (msg : String)
  | notImplementedError (msg : String)
  | asiOSError (msg : String)
  | asiSCSIError (msg : String)
  | assertionError
  deriving DecidableEq, Repr

/-- Decode a whitespace-free character list as hexadecimal byte pairs. -/
def hexPairs : List Char → Except AsiError (List Nat)
  | [] => Except.ok []
  | [_] => Except.error (AsiError.valueError "Odd-length string")
  | a :: b :: rest =>
    match hexDigitVal a, hexDigitVal b, hexPairs rest with
    | some hi, some lo, Except.ok tail => Except.ok ((16 * hi + lo) :: tail)
    | some _, some _, Except.error e => Except.error e
    | _, _, _ => Except.error (AsiError.valueError "Non-hexadecimal digit found")

/-- Modelled from the spec: the hexdump collaborator used by the Raw Command
Builder parses a sequence of hex-byte tokens or a hex-dump string into a raw
byte buffer, and malformed hex input fails with a FormatError.  For the plain
hex-token text this program passes (no address columns, single line), restoring
strips whitespace and decodes hexadecimal byte pairs. -/
def restore (dump : String) : Except AsiError (List Nat) :=
  hexPairs (dump.toList.filter (fun c => !c.isWhitespace))

/-- Python ' '.join on a list of strings. -/
def joinSpace : List String → String
  | [] => ""
  | [s] => s
  | s :: rest => s ++ " " ++ joinSpace rest

/-- Length specification resolution, as inlined twice in build_raw_command:
absent means 0, an all-digit string is int(L), a 0x-prefixed string is
int(L, 16), anything else raises ValueError("invalid LABEL length: L"). -/
def resolve_length (label : String) : Option String → Except AsiError Nat
  | none => Except.ok 0
  | some t =>
    if py_isdigit t then Except.ok (digitsToNat t.toList)
    else if py_startswith t "0x" then
      match hexValue (t.toList.drop 2) with
      | some n => Except.ok n
      | none => Except.error (AsiError.valueError ("invalid literal for int with base 16: " ++ t))
    else Except.error (AsiError.valueError ("invalid " ++ label ++ " length: " ++ t))

/-- The command class built by build_raw_command; its closure variables
(cdb_raw, request_length, send_length, data) are the fields. -/
structure CDB where
  cdb_raw : List Nat
  request_length : Nat
  send_length : Nat
  data : List Nat
  deriving DecidableEq, Repr

def CDB.create_datagram (c : CDB) : List Nat :=
  c.cdb_raw

/-- The single channel call a raw command issues: SCSIWriteCommand with a
payload, or SCSIReadCommand with a maximum response length. -/
inductive SCSICommand where
  | write (datagram : List Nat) (data : List Nat)
  | read (datagram : List Nat) (max_response_length : Nat)
  deriving DecidableEq, Repr

/-- CDB.execute as a drained generator: the list of channel calls issued (the
yields of executer.call) and the result datagram finally yielded back. -/
def CDB.execute (c : CDB) (executer : SCSICommand → List Nat) :
    List SCSICommand × List Nat :=
  let datagram := c.create_datagram
  if c.send_length != 0 then
    ([SCSICommand.write datagram c.data], executer (SCSICommand.write datagram c.data))
  else
    ([SCSICommand.read datagram c.request_length],
     executer (SCSICommand.read datagram c.request_length))

/-- The bytes available from the chosen input source: standard input for the
special name, else the contents of the named file. -/
def input_bytes (input_file : String) (stdin : List Nat) (files : String → List Nat) :
    List Nat :=
  if input_file == "<stdin>" then stdin else files input_file

/-- A bounded read from the input source: Python file.read(n) yields at most n
bytes. -/
def read_input (input_file : String) (stdin : List Nat) (files : String → List Nat)
    (n : Nat) : List Nat :=
  (input_bytes input_file stdin files).take n

/-- build_raw_command: restore the CDB bytes, resolve both lengths, read the
payload when the send length is nonzero, and assert the payload is complete. -/
def build_raw_command (cdb : List String) (request_length : Option String)
    (send_length : Option String) (input_file : String) (stdin : List Nat)
    (files : String → List Nat) : Except AsiError CDB :=
  match restore (joinSpace cdb) with
  | Except.error e => Except.error e
  | Except.ok cdb_raw =>
    match resolve_length "request" request_length with
    | Except.error e => Except.error e
    | Except.ok rlen =>
      match resolve_length "send" send_length with
      | Except.error e => Except.error e
      | Except.ok slen =>
        if (if slen != 0 then read_input input_file stdin files slen else []).length = slen then
          Except.ok { cdb_raw := cdb_raw, request_length := rlen, send_length := slen,
                      data := if slen != 0 then read_input input_file stdin files slen else [] }
        else
          Except.error AsiError.assertionError

/-- Modelled from the spec: the formatters module of this repository is not
under src/; per the spec, formatters are stateless strategies (one class per
rendering) mapping a command or result value to its rendered representation.
They are embedded as an enumeration of the formatter classes the source
instantiates. -/
inductive Formatter where
  | defaultOutputFormatter
  | readcapOutputFormatter
  | lunsOutputFormatter
  | rtpgOutputFormatter
  | hexOutputFormatter
  | rawOutputFormatter
  | jsonOutputFormatter
  | errorOutputFormatter
  deriving DecidableEq, Repr

/-- The values the output layer is handed: a raw result byte buffer, a command
object, or the sense object of a check condition. -/
inductive Value where
  | bytes (bs : List Nat)
  | command (c : CDB)
  | sense (s : String)
  deriving DecidableEq, Repr

/-- A line printed by the process: a plain print, or a value rendered by a
formatter. -/
inductive Line where
  | plain (s : String)
  | formatted (f : Formatter) (v : Value)
  deriving DecidableEq, Repr

/-- Modelled from the spec: formatter rendering is pure and stateless; it is
embedded abstractly as the value tagged with the formatter class that rendered
it. -/
def Formatter.format (f : Formatter) (v : Value) : Line :=
  Line.formatted f v

/-- The process-wide output context: verbosity flag and the two active
formatters, both DefaultOutputFormatter at construction. -/
structure OutputContext where
  verbose : Bool
  command_formatter : Formatter
  result_formatter : Formatter
  deriving DecidableEq, Repr

/-- OutputContext.__init__. -/
def OutputContext.init : OutputContext :=
  { verbose := false,
    command_formatter := Formatter.defaultOutputFormatter,
    result_formatter := Formatter.defaultOutputFormatter }

def OutputContext.enable_verbose (ctx : OutputContext) : OutputContext :=
  { ctx with verbose := true }

def OutputContext.set_command_formatter (ctx : OutputContext) (formatter : Formatter) :
    OutputContext :=
  { ctx with command_formatter := formatter }

def OutputContext.set_result_formatter (ctx : OutputContext) (formatter : Formatter) :
    OutputContext :=
  { ctx with result_formatter := formatter }

def OutputContext.set_formatters (ctx : OutputContext) (formatter : Formatter) :
    OutputContext :=
  (ctx.set_command_formatter formatter).set_result_formatter formatter

/-- output_command: a no-op unless verbose, else one line rendered by the
active command formatter. -/
def OutputContext.output_command (ctx : OutputContext) (command : Value) : List Line :=
  if ctx.verbose then [ctx.command_formatter.format command] else []

/-- output_result: one line rendered by the active result formatter. -/
def OutputContext.output_result (ctx : OutputContext) (result : Value) : List Line :=
  [ctx.result_formatter.format result]

/-- output_error: one line rendered by a fresh ErrorOutputFormatter, never by
the configured formatters. -/
def OutputContext.output_error (ctx : OutputContext) (result : Value) : List Line :=
  [Formatter.errorOutputFormatter.format result]

/-- The observable end of one process run: the exit code and what was printed
to standard error by the top-level handler. -/
structure HandlerOutcome where
  exit_code : Nat
  printed_to_stderr : List Line
  deriving DecidableEq, Repr

/-- The exception_handler decorator around main: an AsiCheckConditionError is
rendered through output_error and the wrapper returns normally (the interpreter
then exits 0); ValueError, NotImplementedError, AsiOSError and AsiSCSIError are
printed and raise SystemExit(1); an AssertionError is not caught, so the
interpreter prints a traceback and exits 1. -/
def exception_handler {α : Type} (ctx : OutputContext) (run : Except AsiError α) :
    HandlerOutcome :=
  match run with
  | Except.ok _ => { exit_code := 0, printed_to_stderr := [] }
  | Except.error (AsiError.asiCheckConditionError sense_obj) =>
    { exit_code := 0, printed_to_stderr := ctx.output_error (Value.sense sense_obj) }
  | Except.error (AsiError.valueError msg) =>
    { exit_code := 1, printed_to_stderr := [Line.plain msg] }
  | Except.error (AsiError.notImplementedError msg) =>
    { exit_code := 1, printed_to_stderr := [Line.plain msg] }
  | Except.error (AsiError.asiOSError msg) =>
    { exit_code := 1, printed_to_stderr := [Line.plain msg] }
  | Except.error (AsiError.asiSCSIError msg) =>
    { exit_code := 1, printed_to_stderr := [Line.plain msg] }
  | Except.error AsiError.assertionError =>
    { exit_code := 1, printed_to_stderr := [Line.plain "Traceback AssertionError"] }

/-- The executer families asi_context can scope-open a channel through. -/
inductive Executer where
  | windows
  | linux_sg
  | linux_dm
  | solaris
  | aix
  deriving DecidableEq, Repr

/-- asi_context: platform dispatch by string prefix over the four recognized
families, with the linux device-path sub-dispatch (an /dev/sd path is first
mapped to its /dev/sg equivalent by the get_sg_from_sd collaborator); any other
platform raises NotImplementedError before any channel is opened. -/
def asi_context (platform device : String) (get_sg_from_sd : String → String) :
    Except AsiError Executer :=
  if py_startswith platform "windows" then Except.ok Executer.windows
  else if py_startswith platform "linux" then
    let device2 := if py_startswith device "/dev/sd" then get_sg_from_sd device else device
    Except.ok (if py_startswith device2 "/dev/sg" then Executer.linux_sg else Executer.linux_dm)
  else if py_startswith platform "solaris" then Except.ok Executer.solaris
  else if py_startswith platform "aix" then Except.ok Executer.aix
  else Except.error (AsiError.notImplementedError "this platform is not supported")

/-- sync_wait: echo the command through the output context, drain the command
generator to its final result, and print the result unless suppressed.  Returns
the stdout lines, the channel calls issued, and the result. -/
def sync_wait (ctx : OutputContext) (command : CDB) (executer : SCSICommand → List Nat)
    (supresss_output : Bool) : List Line × List SCSICommand × List Nat :=
  let r := command.execute executer
  (ctx.output_command (Value.command command) ++
     (if supresss_output then [] else ctx.output_result (Value.bytes r.2)),
   r.1, r.2)

/-- The file write the raw entry point performs on success: the result bytes
go to the outfile when one was given (Python truthiness: None and the empty
string both skip the write). -/
def outfile_writes (output_file : Option String) (result : List Nat) :
    List (String × List Nat) :=
  match output_file with
  | some f => if f.length != 0 then [(f, result)] else []
  | none => []

/-- The raw entry point: build the command, open the channel, execute with the
result print suppressed, and write the result bytes to the outfile when one was
given.  Returns the stdout lines, the channel calls issued, and the file
writes. -/
def raw (ctx : OutputContext) (platform device : String) (get_sg_from_sd : String → String)
    (cdb : List String) (request_length : Option String) (output_file : Option String)
    (send_length : Option String) (input_file : String) (stdin : List Nat)
    (files : String → List Nat) (executer : SCSICommand → List Nat) :
    Except AsiError (List Line × List SCSICommand × List (String × List Nat)) :=
  match build_raw_command cdb request_length send_length input_file stdin files with
  | Except.error e => Except.error e
  | Except.ok command =>
    match asi_context platform device get_sg_from_sd with
    | Except.error e => Except.error e
    | Except.ok _ =>
      Except.ok ((sync_wait ctx command executer true).1,
                 (sync_wait ctx command executer true).2.1,
                 outfile_writes output_file (sync_wait ctx command executer true).2.2)

/-- The channel calls actually issued by one raw invocation: none when the
invocation aborts with an exception before execution. -/
def raw_calls (ctx : OutputContext) (platform device : String)
    (get_sg_from_sd : String → String) (cdb : List String)
    (request_length : Option String) (output_file : Option String)
    (send_length : Option String) (input_file : String) (stdin : List Nat)
    (files : String → List Nat) (executer : SCSICommand → List Nat) : List SCSICommand :=
  match raw ctx platform device get_sg_from_sd cdb request_length output_file
        send_length input_file stdin files executer with
  | Except.ok r => r.2.1
  | Except.error _ => []

/-- The docopt flags set_formatters consults. -/
structure Arguments where
  readcap : Bool
  luns : Bool
  rtpg : Bool
  hex : Bool
  raw : Bool
  json : Bool
  deriving DecidableEq, Repr

/-- set_formatters: first the family-specific result formatter, then the
hex/raw/json override of both formatters, in that elif order. -/
def set_formatters (arguments : Arguments) (ctx : OutputContext) : OutputContext :=
  let ctx2 :=
    if arguments.readcap then ctx.set_result_formatter Formatter.readcapOutputFormatter
    else if arguments.luns then ctx.set_result_formatter Formatter.lunsOutputFormatter
    else if arguments.rtpg then ctx.set_result_formatter Formatter.rtpgOutputFormatter
    else ctx
  if arguments.hex then ctx2.set_formatters Formatter.hexOutputFormatter
  else if arguments.raw then ctx2.set_formatters Formatter.rawOutputFormatter
  else if arguments.json then ctx2.set_formatters Formatter.jsonOutputFormatter
  else ctx2

/-- The sg_reset sub-operations the reset entry point can perform. -/
inductive ResetOp where
  | target_reset (device : String)
  | host_reset (device : String)
  | lun_reset (device : String)
  deriving DecidableEq, Repr

/-- reset: on a linux platform perform the selected reset (if any flag is set);
on any other platform raise NotImplementedError.  With no flag set on linux the
if/elif chain has no else branch and the call silently does nothing. -/
def reset (platform device : String) (target_reset host_reset lun_reset : Bool) :
    Except AsiError (List ResetOp) :=
  if py_startswith platform "linux" then
    if target_reset then Except.ok [ResetOp.target_reset device]
    else if host_reset then Except.ok [ResetOp.host_reset device]
    else if lun_reset then Except.ok [ResetOp.lun_reset device]
    else Except.ok []
  else Except.error (AsiError.notImplementedError "task management commands not supported on this platform")

/-- The amended length-specification rule, written from the spec side
(amended): absent means 0; a nonempty all-decimal string is its base-10 value;
a 0x-prefixed string is the base-16 value of the digit string after the prefix
when that is nonempty well-formed hexadecimal and a ValueError otherwise; every
other form, the empty string included, is a ValueError. -/
def resolveSpec (label : String) (s : Option String) : Except AsiError Nat :=
  match s with
  | none => Except.ok 0
  | some t =>
    if t.toList ≠ [] ∧ ∀ c ∈ t.toList, c.isDigit = true then
      Except.ok (Nat.ofDigits 10 ((t.toList.map (fun c => c.toNat - 48)).reverse))
    else if t.toList.take 2 = ['0', 'x'] then
      if t.toList.drop 2 ≠ [] ∧ ∀ c ∈ t.toList.drop 2, (hexDigitVal c).isSome = true then
        Except.ok (Nat.ofDigits 16 (((t.toList.drop 2).map (fun c => (hexDigitVal c).getD 0)).reverse))
      else Except.error (AsiError.valueError ("invalid literal for int with base 16: " ++ t))
    else Except.error (AsiError.valueError ("invalid " ++ label ++ " length: " ++ t))

/-- Helper: a left fold accumulating base-b digits equals the base-b value of
the digit list (most significant first), shifted by the starting accumulator. -/
theorem foldl_mul_add_eq_ofDigits (b : Nat) (v : Char → Nat) (l : List Char) (a : Nat) :
    l.foldl (fun acc c => b * acc + v c) a
      = Nat.ofDigits b ((l.map v).reverse) + a * b ^ l.length := by
  induction l generalizing a with
  | nil => simp
  | cons c l ih =>
    rw [List.foldl_cons, ih]
    rw [List.map_cons, List.reverse_cons, Nat.ofDigits_append]
    simp [Nat.ofDigits_cons, Nat.ofDigits_nil, pow_succ]
    ring

/-- C7: building a Raw Command from the CDB tokens 12 and 34 produces a command
whose create_datagram result is exactly the byte sequence 0x12 0x34. -/
theorem raw_cdb_datagram_round_trip :
    (build_raw_command ["12", "34"] none none "<stdin>" [] (fun _ => [])).map CDB.create_datagram
      = Except.ok [0x12, 0x34] := by
  rfl

/-- C8: output_error renders through the fixed ErrorOutputFormatter for every
error value and every configuration of the output context; the active result
formatter never influences error rendering. -/
theorem output_error_uses_fixed_formatter (ctx ctx2 : OutputContext) (result : Value) :
    ctx.output_error result = [Formatter.errorOutputFormatter.format result] ∧
    ctx.output_error result = ctx2.output_error result :=
  ⟨rfl, rfl⟩

/-- C9: an AsiCheckConditionError is rendered through the error formatter and
the handler returns normally, so the process exits 0; every other error class
of the handler exits with code 1. -/
theorem check_condition_exit_code_zero (ctx : OutputContext) (sense_obj : String)
    (e : AsiError) (h : ∀ s, e ≠ AsiError.asiCheckConditionError s) :
    exception_handler ctx
        (Except.error (AsiError.asiCheckConditionError sense_obj) : Except AsiError Unit)
      = { exit_code := 0,
          printed_to_stderr :=
            [Line.formatted Formatter.errorOutputFormatter (Value.sense sense_obj)] } ∧
    (exception_handler ctx (Except.error e : Except AsiError Unit)).exit_code = 1 := by
  constructor
  · rfl
  · cases e with
    | asiCheckConditionError s => exact absurd rfl (h s)
    | valueError msg => rfl
    | notImplementedError msg => rfl
    | asiOSError msg => rfl
    | asiSCSIError msg => rfl
    | assertionError => rfl

/-- Witness for C9 at a concrete sense object and a concrete ValueError. -/
theorem check_condition_exit_code_zero_witness :
    exception_handler OutputContext.init
        (Except.error (AsiError.asiCheckConditionError "sense data") : Except AsiError Unit)
      = { exit_code := 0,
          printed_to_stderr :=
            [Line.formatted Formatter.errorOutputFormatter (Value.sense "sense data")] } ∧
    (exception_handler OutputContext.init
        (Except.error (AsiError.valueError "bad input") : Except AsiError Unit)).exit_code = 1 :=
  check_condition_exit_code_zero OutputContext.init "sense data" (AsiError.valueError "bad input")
    (fun _ hc => AsiError.noConfusion hc)

/-- C10: invoking reset on a linux host with none of the target, host, device
flags set performs no reset sub-operation, raises nothing, and the process
exits 0. -/
theorem reset_without_flags_silently_succeeds (ctx : OutputContext) (platform device : String)
    (h : py_startswith platform "linux" = true) :
    reset platform device false false false = Except.ok [] ∧
    (exception_handler ctx (reset platform device false false false)).exit_code = 0 := by
  have hr : reset platform device false false false = Except.ok [] := by
    simp [reset, h]
  exact ⟨hr, by rw [hr]; rfl⟩

/-- Witness for C10 on the linux platform string. -/
theorem reset_without_flags_silently_succeeds_witness :
    reset "linux" "/dev/sg0" false false false = Except.ok [] ∧
    (exception_handler OutputContext.init (reset "linux" "/dev/sg0" false false false)).exit_code = 0 :=
  reset_without_flags_silently_succeeds OutputContext.init "linux" "/dev/sg0" (by rfl)

/-- C6: channel resolution recognizes exactly the windows, linux, solaris and
aix families; any platform string outside them fails with NotImplementedError
before a channel is opened, and the process exits 1. -/
theorem unsupported_platform_rejected (ctx : OutputContext) (platform device : String)
    (get_sg_from_sd : String → String)
    (h1 : py_startswith platform "windows" = false)
    (h2 : py_startswith platform "linux" = false)
    (h3 : py_startswith platform "solaris" = false)
    (h4 : py_startswith platform "aix" = false) :
    asi_context platform device get_sg_from_sd
      = Except.error (AsiError.notImplementedError "this platform is not supported") ∧
    (exception_handler ctx (asi_context platform device get_sg_from_sd)).exit_code = 1 := by
  have hsel : asi_context platform device get_sg_from_sd
      = Except.error (AsiError.notImplementedError "this platform is not supported") := by
    simp [asi_context, h1, h2, h3, h4]
  exact ⟨hsel, by rw [hsel]; rfl⟩

/-- Witness for C6 on the darwin platform string. -/
theorem unsupported_platform_rejected_witness :
    asi_context "darwin" "/dev/sg0" (fun d => d)
      = Except.error (AsiError.notImplementedError "this platform is not supported") ∧
    (exception_handler OutputContext.init (asi_context "darwin" "/dev/sg0" (fun d => d))).exit_code = 1 :=
  unsupported_platform_rejected OutputContext.init "darwin" "/dev/sg0" (fun d => d)
    (by rfl) (by rfl) (by rfl) (by rfl)

/-- C2 counterexample: the empty-string length specification does not resolve
to 0; it raises the FormatError of the catch-all branch, because the empty
string is neither all-decimal nor 0x-prefixed. -/
theorem resolve_length_empty_string_cex :
    resolve_length "request" (some "")
      = Except.error (AsiError.valueError "invalid request length: ") ∧
    resolve_length "request" (some "") ≠ Except.ok 0 := by
  refine ⟨rfl, fun h => ?_⟩
  have h2 : (Except.error (AsiError.valueError "invalid request length: ") : Except AsiError Nat)
      = Except.ok 0 := h
  exact Except.noConfusion h2

/-- C5: formatter selection is deterministic with fixed precedence hex over
raw over json; when no override flag is set the command formatter is untouched
and the result formatter is the family-specific one chosen first (or the one
already in the context). -/
theorem set_formatters_precedence (arguments : Arguments) (ctx : OutputContext) :
    (arguments.hex = true →
      (set_formatters arguments ctx).command_formatter = Formatter.hexOutputFormatter ∧
      (set_formatters arguments ctx).result_formatter = Formatter.hexOutputFormatter) ∧
    (arguments.hex = false → arguments.raw = true →
      (set_formatters arguments ctx).command_formatter = Formatter.rawOutputFormatter ∧
      (set_formatters arguments ctx).result_formatter = Formatter.rawOutputFormatter) ∧
    (arguments.hex = false → arguments.raw = false → arguments.json = true →
      (set_formatters arguments ctx).command_formatter = Formatter.jsonOutputFormatter ∧
      (set_formatters arguments ctx).result_formatter = Formatter.jsonOutputFormatter) ∧
    (arguments.hex = false → arguments.raw = false → arguments.json = false →
      (set_formatters arguments ctx).command_formatter = ctx.command_formatter ∧
      (set_formatters arguments ctx).result_formatter =
        (if arguments.readcap then Formatter.readcapOutputFormatter
         else if arguments.luns then Formatter.lunsOutputFormatter
         else if arguments.rtpg then Formatter.rtpgOutputFormatter
         else ctx.result_formatter)) := by
  unfold set_formatters OutputContext.set_formatters OutputContext.set_command_formatter
    OutputContext.set_result_formatter
  refine ⟨fun hh => ?_, fun hh hr => ?_, fun hh hr hj => ?_, fun hh hr hj => ?_⟩ <;>
    rcases arguments with ⟨rc, lu, rt, hx, rw2, js⟩ <;>
    simp_all <;>
    by_cases hrc : rc <;> by_cases hlu : lu <;> by_cases hrt : rt <;> simp_all

/-- Witness for C5: with hex and json both set, both formatters become the hex
formatter (hex overrides json). -/
theorem set_formatters_precedence_witness :
    (set_formatters ⟨false, false, false, true, false, true⟩ OutputContext.init).command_formatter
      = Formatter.hexOutputFormatter ∧
    (set_formatters ⟨false, false, false, true, false, true⟩ OutputContext.init).result_formatter
      = Formatter.hexOutputFormatter :=
  (set_formatters_precedence ⟨false, false, false, true, false, true⟩ OutputContext.init).1 rfl

/-- Helper: a Bool that is not true is false. -/
theorem bool_eq_false_of_not (b : Bool) (h : ¬ b = true) : b = false := by
  cases b
  · rfl
  · exact absurd rfl h

/-- Helper: the Python isdigit test as a proposition. -/
theorem py_isdigit_iff (t : String) :
    py_isdigit t = true ↔ (t.toList ≠ [] ∧ ∀ c ∈ t.toList, c.isDigit = true) := by
  simp [py_isdigit, List.all_eq_true, List.isEmpty_iff]

/-- Helper: the startswith 0x test as a proposition on the character list. -/
theorem py_startswith_0x_iff (t : String) :
    py_startswith t "0x" = true ↔ t.toList.take 2 = ['0', 'x'] := by
  have h0 : "0x".toList = ['0', 'x'] := rfl
  simp [py_startswith, h0]

/-- Helper: the all-hexadecimal test of hexValue as a proposition. -/
theorem hex_all_iff (l : List Char) :
    (!l.isEmpty && l.all fun c => (hexDigitVal c).isSome) = true
      ↔ (l ≠ [] ∧ ∀ c ∈ l, (hexDigitVal c).isSome = true) := by
  simp [List.all_eq_true, List.isEmpty_iff]

/-- C2 amended: length resolution yields 0 when the specification is absent,
the base-10 value when it is a nonempty all-decimal string, the base-16 value
of the digits after the prefix when it is 0x-prefixed with well-formed
hexadecimal digits (and a ValueError for a malformed 0x form), and a
FormatError (ValueError) for any other form, including the empty string. -/
theorem resolve_length_matches_amended_rule (label : String) (s : Option String) :
    resolve_length label s = resolveSpec label s := by
  cases s with
  | none => rfl
  | some t =>
    simp only [resolve_length, resolveSpec]
    by_cases hd : (t.toList ≠ [] ∧ ∀ c ∈ t.toList, c.isDigit = true)
    · have hb : py_isdigit t = true := (py_isdigit_iff t).mpr hd
      rw [if_pos hd]
      simp [hb, digitsToNat, foldl_mul_add_eq_ofDigits]
    · have hb : py_isdigit t = false :=
        bool_eq_false_of_not _ (fun h => hd ((py_isdigit_iff t).mp h))
      rw [if_neg hd]
      by_cases hp : t.toList.take 2 = ['0', 'x']
      · have hpb : py_startswith t "0x" = true := (py_startswith_0x_iff t).mpr hp
        rw [if_pos hp]
        by_cases hh : (t.toList.drop 2 ≠ [] ∧ ∀ c ∈ t.toList.drop 2, (hexDigitVal c).isSome = true)
        · have hvb := (hex_all_iff (t.toList.drop 2)).mpr hh
          have hsome : hexValue (t.toList.drop 2)
              = some ((t.toList.drop 2).foldl (fun acc c => 16 * acc + (hexDigitVal c).getD 0) 0) := by
            unfold hexValue
            rw [hvb]
            simp
          rw [if_pos hh, hsome]
          simp [hb, hpb, foldl_mul_add_eq_ofDigits]
        · have hvb : (!(t.toList.drop 2).isEmpty
              && (t.toList.drop 2).all fun c => (hexDigitVal c).isSome) = false :=
            bool_eq_false_of_not _ (fun h => hh ((hex_all_iff (t.toList.drop 2)).mp h))
          have hnone : hexValue (t.toList.drop 2) = none := by
            unfold hexValue
            rw [hvb]
            simp
          rw [if_neg hh, hnone]
          simp [hb, hpb]
      · have hpb : py_startswith t "0x" = false :=
          bool_eq_false_of_not _ (fun h => hp ((py_startswith_0x_iff t).mp h))
        rw [if_neg hp]
        simp [hb, hpb]

/-- C1: for every raw command build, the direction is decided purely by the
resolved send length: a nonzero send length issues exactly one SCSIWriteCommand
carrying the payload and never a read call, and a zero send length issues
exactly one SCSIReadCommand whose length is the resolved request length, which
defaults to 0 when the request specification is absent. -/
theorem raw_command_direction (cdb : List String) (request_length send_length : Option String)
    (input_file : String) (stdin : List Nat) (files : String → List Nat)
    (command : CDB) (executer : SCSICommand → List Nat)
    (hbuild : build_raw_command cdb request_length send_length input_file stdin files
      = Except.ok command) :
    resolve_length "send" send_length = Except.ok command.send_length ∧
    (0 < command.send_length →
      (command.execute executer).1
          = [SCSICommand.write command.create_datagram command.data] ∧
      ∀ d n, SCSICommand.read d n ∉ (command.execute executer).1) ∧
    (command.send_length = 0 →
      (command.execute executer).1
          = [SCSICommand.read command.create_datagram command.request_length] ∧
      resolve_length "request" request_length = Except.ok command.request_length ∧
      (request_length = none → command.request_length = 0)) := by
  unfold build_raw_command at hbuild
  split at hbuild
  next e heq1 => exact Except.noConfusion hbuild
  next cdb_raw heq1 =>
  split at hbuild
  next e heq2 => exact Except.noConfusion hbuild
  next rlen heq2 =>
  split at hbuild
  next e heq3 => exact Except.noConfusion hbuild
  next slen heq3 =>
  split at hbuild
  next hne =>
    split at hbuild
    next hlen =>
      injection hbuild with hcmd
      subst hcmd
      refine ⟨heq3, fun hpos => ?_, fun hzero => ?_⟩
      · constructor
        · simp [CDB.execute, CDB.create_datagram, hne]
        · intro d n hmem
          simp [CDB.execute, CDB.create_datagram, hne] at hmem
      · exact absurd hzero (by simpa using hne)
    next hlen => exact Except.noConfusion hbuild
  next hne =>
    split at hbuild
    next hlen =>
      injection hbuild with hcmd
      subst hcmd
      have hz : slen = 0 := by simpa using hne
      refine ⟨heq3, fun hpos => ?_, fun hzero => ?_⟩
      · exact absurd hpos (by simp [hz])
      · subst hz
        refine ⟨by simp [CDB.execute, CDB.create_datagram], heq2, fun hnone => ?_⟩
        subst hnone
        have h0 : (Except.ok 0 : Except AsiError Nat) = Except.ok rlen := heq2
        injection h0 with h0v
        exact h0v.symm
    next hlen => exact Except.noConfusion hbuild

/-- Witness for C1: a build with request length 0x24 and no send length is a
read command of 36 bytes. -/
theorem raw_command_direction_witness :
    (CDB.execute ⟨[0x12], 36, 0, []⟩ (fun _ => [])).1 = [SCSICommand.read [0x12] 36] :=
  ((raw_command_direction ["12"] (some "0x24") none "<stdin>" [] (fun _ => [])
      ⟨[0x12], 36, 0, []⟩ (fun _ => []) (by rfl)).2.2 rfl).1

/-- C3: a raw command build whose resolved send length exceeds the bytes the
input source yields fails with the incomplete-input assertion before any
channel call is issued, and the process exits 1. -/
theorem incomplete_input_aborts_before_channel_call (ctx : OutputContext)
    (platform device : String) (get_sg_from_sd : String → String) (cdb : List String)
    (request_length : Option String) (output_file : Option String) (send_spec : String)
    (input_file : String) (stdin : List Nat) (files : String → List Nat)
    (executer : SCSICommand → List Nat) (bs : List Nat) (rlen n : Nat)
    (hcdb : restore (joinSpace cdb) = Except.ok bs)
    (hrl : resolve_length "request" request_length = Except.ok rlen)
    (hsl : resolve_length "send" (some send_spec) = Except.ok n)
    (hpos : 0 < n)
    (hshort : (input_bytes input_file stdin files).length < n) :
    build_raw_command cdb request_length (some send_spec) input_file stdin files
        = Except.error AsiError.assertionError ∧
    raw ctx platform device get_sg_from_sd cdb request_length output_file (some send_spec)
        input_file stdin files executer = Except.error AsiError.assertionError ∧
    raw_calls ctx platform device get_sg_from_sd cdb request_length output_file (some send_spec)
        input_file stdin files executer = [] ∧
    (exception_handler ctx (raw ctx platform device get_sg_from_sd cdb request_length output_file
        (some send_spec) input_file stdin files executer)).exit_code = 1 := by
  have hbuild : build_raw_command cdb request_length (some send_spec) input_file stdin files
      = Except.error AsiError.assertionError := by
    unfold build_raw_command
    rw [hcdb, hrl, hsl]
    have hne : (n != 0) = true := by simpa using Nat.pos_iff_ne_zero.mp hpos
    have hlen : (read_input input_file stdin files n).length ≠ n := by
      unfold read_input
      rw [List.length_take]
      omega
    simp [hne, hlen]
  have hraw : raw ctx platform device get_sg_from_sd cdb request_length output_file
      (some send_spec) input_file stdin files executer = Except.error AsiError.assertionError := by
    unfold raw
    rw [hbuild]
  refine ⟨hbuild, hraw, ?_, ?_⟩
  · unfold raw_calls
    rw [hraw]
  · rw [hraw]
    rfl

/-- Witness for C3: send length 10 with only 4 bytes on standard input. -/
theorem incomplete_input_aborts_before_channel_call_witness :
    build_raw_command ["12"] none (some "10") "<stdin>" [1, 2, 3, 4] (fun _ => [])
        = Except.error AsiError.assertionError ∧
    raw OutputContext.init "linux" "/dev/sg0" (fun d => d) ["12"] none none (some "10")
        "<stdin>" [1, 2, 3, 4] (fun _ => []) (fun _ => []) = Except.error AsiError.assertionError ∧
    raw_calls OutputContext.init "linux" "/dev/sg0" (fun d => d) ["12"] none none (some "10")
        "<stdin>" [1, 2, 3, 4] (fun _ => []) (fun _ => []) = [] ∧
    (exception_handler OutputContext.init (raw OutputContext.init "linux" "/dev/sg0" (fun d => d)
        ["12"] none none (some "10") "<stdin>" [1, 2, 3, 4] (fun _ => [])
        (fun _ => []))).exit_code = 1 :=
  incomplete_input_aborts_before_channel_call OutputContext.init "linux" "/dev/sg0" (fun d => d)
    ["12"] none none "10" "<stdin>" [1, 2, 3, 4] (fun _ => []) (fun _ => []) [0x12] 0 10
    (by rfl) (by rfl) (by rfl) (by decide) (by decide)

/-- C4 counterexample: a successful raw invocation without an outfile prints
nothing at all: the result is not routed through the result formatter to
standard output (and nothing is written to a file either), refuting the claim
that without an outfile the result is printed through the active formatter. -/
theorem raw_without_outfile_prints_nothing_cex :
    raw OutputContext.init "linux" "/dev/sg0" (fun d => d) ["12"] (some "2") none none
        "<stdin>" [] (fun _ => []) (fun _ => [7, 8])
      = Except.ok ([], [SCSICommand.read [0x12] 2], []) := by
  rfl

/-- C4 amended: on a successful raw invocation the result print is always
suppressed: standard output carries only the verbose command echo, and the raw
result bytes go to the outfile exactly when one was given (with Python
truthiness, a nonempty name); without an outfile the result is discarded. -/
theorem raw_result_routing (ctx : OutputContext) (platform device : String)
    (get_sg_from_sd : String → String) (cdb : List String)
    (request_length : Option String) (output_file : Option String)
    (send_length : Option String) (input_file : String) (stdin : List Nat)
    (files : String → List Nat) (executer : SCSICommand → List Nat)
    (command : CDB) (prints : List Line) (calls : List SCSICommand)
    (writes : List (String × List Nat))
    (hbuild : build_raw_command cdb request_length send_length input_file stdin files
      = Except.ok command)
    (hrun : raw ctx platform device get_sg_from_sd cdb request_length output_file send_length
        input_file stdin files executer = Except.ok (prints, calls, writes)) :
    prints = ctx.output_command (Value.command command) ∧
    writes = outfile_writes output_file (command.execute executer).2 := by
  unfold raw at hrun
  split at hrun
  next e heq => rw [hbuild] at heq; exact Except.noConfusion heq
  next command2 heq =>
    rw [hbuild] at heq
    injection heq with hc
    subst hc
    split at hrun
    next e heq2 => exact Except.noConfusion hrun
    next ex heq2 =>
      injection hrun with hp
      injection hp with h1 hrest
      injection hrest with h2 h3
      constructor
      · rw [← h1]
        simp [sync_wait]
      · rw [← h3]
        rfl

/-- Witness for C4: with an outfile the result bytes are written to it and the
print list is empty. -/
theorem raw_result_routing_witness :
    ([] : List Line) = OutputContext.init.output_command (Value.command ⟨[0x12], 2, 0, []⟩) ∧
    [("out.bin", [7, 8])]
      = outfile_writes (some "out.bin") (CDB.execute ⟨[0x12], 2, 0, []⟩ (fun _ => [7, 8])).2 :=
  raw_result_routing OutputContext.init "linux" "/dev/sg0" (fun d => d) ["12"] (some "2")
    (some "out.bin") none "<stdin>" [] (fun _ => []) (fun _ => [7, 8]) ⟨[0x12], 2, 0, []⟩
    [] [SCSICommand.read [0x12] 2] [("out.bin", [7, 8])] (by rfl) (by rfl)

end AsiUtils
